import Mathlib

/-!
Verification development for the curseforge-api-wrapper HTTP client core.

The definitions below are a shallow embedding of the Rust sources:
  - src/errors.rs           (error taxonomy, Clone, is_retryable)
  - src/api/client.rs       (configuration, construction, build_url,
                             get/post with retry, download_file, upload_file)
  - src/api/search.rs       (search_projects query building)
  - src/api/project.rs      (get_project_files query building)

Effectful operations (sending an HTTP request, reading a file, streaming a
body) are embedded by passing the outcome of each external interaction in as
an explicit oracle value, and by returning an explicit trace of the effects
the code performs (attempt counts, sleeps, whether a file was created), so
that control flow — which attempt runs, when the code sleeps, what it
returns — is modelled exactly as written in the source.
-/

/-- Error type from src/errors.rs (`CurseForgeError`).  The deep-cause
variants `Request`, `Json`, `Url`, `Io` wrap foreign error values
(reqwest::Error, serde_json::Error, url::ParseError, std::io::Error); they
are modelled as carrying the rendered message string.  The source variant
named `Io` is spelled `IoError` here; `Timeout` carries its duration in
whole seconds. -/
inductive CurseForgeError : Type where
  | Request (msg : String)
  | Json (msg : String)
  | Url (msg : String)
  | IoError (msg : String)
  | Api (status : Nat) (message : String)
  | InvalidApiKey
  | RateLimitExceeded
  | NotFound (msg : String)
  | InvalidParameters (msg : String)
  | AuthenticationRequired
  | PermissionDenied (msg : String)
  | DownloadFailed (msg : String)
  | UploadFailed (msg : String)
  | InvalidFileFormat (msg : String)
  | FileTooLarge (size : Nat) (max : Nat)
  | Timeout (timeout : Nat)
  | Unknown (msg : String)
deriving DecidableEq

/-- `impl Clone for CurseForgeError` (src/errors.rs lines 83-107): the
duplicable variants are copied field by field; the four non-cloneable
deep-cause variants fall back to `Unknown` with a fixed placeholder text. -/
def CurseForgeError.clone : CurseForgeError → CurseForgeError
  | .Api status message => .Api status message
  | .InvalidApiKey => .InvalidApiKey
  | .RateLimitExceeded => .RateLimitExceeded
  | .NotFound msg => .NotFound msg
  | .InvalidParameters msg => .InvalidParameters msg
  | .AuthenticationRequired => .AuthenticationRequired
  | .PermissionDenied msg => .PermissionDenied msg
  | .DownloadFailed msg => .DownloadFailed msg
  | .UploadFailed msg => .UploadFailed msg
  | .InvalidFileFormat msg => .InvalidFileFormat msg
  | .FileTooLarge size max => .FileTooLarge size max
  | .Timeout t => .Timeout t
  | .Unknown msg => .Unknown msg
  | .Request _ => .Unknown "Request error (not cloneable)"
  | .Json _ => .Unknown "JSON error (not cloneable)"
  | .Url _ => .Unknown "URL error (not cloneable)"
  | .IoError _ => .Unknown "IO error (not cloneable)"

/-- `CurseForgeError::is_retryable` (src/errors.rs lines 109-116). -/
def CurseForgeError.is_retryable : CurseForgeError → Bool
  | .Request _ => true
  | .Timeout _ => true
  | .RateLimitExceeded => true
  | _ => false

/-- The variants whose payload is a foreign, non-cloneable error value
(`Request`, `Json`, `Url`, `Io`); exactly the fallback arms of `Clone`. -/
def CurseForgeError.isDeepCause : CurseForgeError → Bool
  | .Request _ => true
  | .Json _ => true
  | .Url _ => true
  | .IoError _ => true
  | _ => false

/-- `CurseForgeConfig` (src/api/client.rs lines 7-21); the two
`std::time::Duration` fields are modelled in whole seconds. -/
structure CurseForgeConfig where
  api_key : String
  base_url : String
  timeout : Nat
  user_agent : String
  max_retries : Nat
  retry_delay : Nat
deriving DecidableEq

/-- `impl Default for CurseForgeConfig` (src/api/client.rs lines 23-34). -/
def CurseForgeConfig.default : CurseForgeConfig :=
  { api_key := ""
    base_url := "https://api.curseforge.com/v1"
    timeout := 30
    user_agent := "curseforge-api-wrapper/0.1.0"
    max_retries := 3
    retry_delay := 1 }

/-- The byte-validity check performed by `http::HeaderValue::from_str`: every
byte must be horizontal tab (9) or lie in 32..=255 excluding 127.  Checked at
the char level: a char below 128 is its own byte, and every byte of a char at
or above 128 is itself at or above 128, so the char-level check agrees with
the byte-level one. -/
def headerValueValid (s : String) : Bool :=
  s.data.all (fun c => decide (c.toNat = 9 ∨ (32 ≤ c.toNat ∧ c.toNat ≠ 127)))

/-- `CurseForgeClient` (src/api/client.rs lines 37-41).  The embedded
`reqwest::Client` field carries no state observable by the claims (it is a
connection pool preconfigured with the already-validated headers and
timeout), so only the configuration is kept. -/
structure CurseForgeClient where
  config : CurseForgeConfig
deriving DecidableEq

/-- `CurseForgeClient::with_config` (src/api/client.rs lines 53-77): reject an
empty key, then build the Authorization header value from the key (failure
maps to `InvalidApiKey`), then the User-Agent header value (failure maps to
`InvalidParameters "Invalid user agent"`).  `ClientBuilder::build` with an
already-validated header map and timeout is deterministic construction and is
modelled as succeeding, as the repository's own construction tests expect. -/
def CurseForgeClient.with_config (config : CurseForgeConfig) :
    Except CurseForgeError CurseForgeClient :=
  if config.api_key = "" then .error .InvalidApiKey
  else if ¬ headerValueValid ("Bearer " ++ config.api_key) then .error .InvalidApiKey
  else if ¬ headerValueValid config.user_agent then
    .error (.InvalidParameters "Invalid user agent")
  else .ok { config := config }

/-- `CurseForgeClient::new` (src/api/client.rs lines 45-50). -/
def CurseForgeClient.new (api_key : String) : Except CurseForgeError CurseForgeClient :=
  CurseForgeClient.with_config { CurseForgeConfig.default with api_key := api_key }

/-- Decidable equality for `Except`, used to evaluate concrete runs. -/
instance {e a : Type} [DecidableEq e] [DecidableEq a] : DecidableEq (Except e a) := fun x y =>
  match x, y with
  | .error u, .error v =>
    if h : u = v then .isTrue (by rw [h]) else .isFalse (by intro hc; injection hc with h2; exact h h2)
  | .error _, .ok _ => .isFalse (by intro hc; exact Except.noConfusion hc)
  | .ok _, .error _ => .isFalse (by intro hc; exact Except.noConfusion hc)
  | .ok u, .ok v =>
    if h : u = v then .isTrue (by rw [h]) else .isFalse (by intro hc; injection hc with h2; exact h h2)

/-- A parsed absolute hierarchical URL.  `path` holds everything from the
first `/`, `?` or `#` after the authority onward (path, query and fragment
are not separated further: serialization is plain concatenation either
way). -/
structure ParsedUrl where
  scheme : String
  host : String
  path : String
deriving DecidableEq

/-- Serialization of a parsed URL back to its string form. -/
def ParsedUrl.serialize (u : ParsedUrl) : String :=
  u.scheme ++ "://" ++ u.host ++ u.path

/-- RFC 3986 scheme syntax: one ASCII letter followed by letters, digits,
`+`, `-` or `.`. -/
def schemeValid (s : String) : Bool :=
  match s.data with
  | [] => false
  | c :: cs => c.isAlpha && cs.all (fun d => d.isAlphanum || d == '+' || d == '-' || d == '.')

/-- Cut a character list at the first occurrence of the literal `://`,
returning the characters before and after it. -/
def splitScheme : List Char → Option (List Char × List Char)
  | [] => none
  | ':' :: '/' :: '/' :: rest => some ([], rest)
  | c :: rest =>
    match splitScheme rest with
    | some (pre, post) => some (c :: pre, post)
    | none => none

/-- Model of `url::Url::parse` (external `url` crate), restricted to absolute
hierarchical `scheme://host[/...]` URLs, which is the shape every URL built
by this repository has.  A string with no valid `scheme://` head fails with
the crate's "relative URL without a base" error; an empty authority fails
with its "empty host" error; an absent path serializes as `/`, as the crate
normalizes it.  Ports, userinfo, percent-coding and host normalization are
outside the modelled fragment and are not exercised by any theorem below. -/
def parseUrl (s : String) : Except String ParsedUrl :=
  match splitScheme s.data with
  | none => .error "relative URL without a base"
  | some (schemeChars, remainder) =>
    if schemeValid (String.mk schemeChars) then
      let hostChars := remainder.takeWhile (fun c => !(c == '/' || c == '?' || c == '#'))
      let restChars := remainder.dropWhile (fun c => !(c == '/' || c == '?' || c == '#'))
      if hostChars.isEmpty then .error "empty host"
      else
        .ok { scheme := String.mk schemeChars
              host := String.mk hostChars
              path := if restChars.isEmpty then "/" else String.mk restChars }
    else .error "relative URL without a base"

/-- `CurseForgeClient::build_url` (src/api/client.rs lines 100-103): the
base URL and the endpoint are joined by plain string concatenation
(`format!` of the two strings), and the result is parsed; a parse failure is
wrapped in the `Url` error variant. -/
def CurseForgeClient.build_url (cfg : CurseForgeConfig) (endpoint : String) :
    Except CurseForgeError ParsedUrl :=
  match parseUrl (cfg.base_url ++ endpoint) with
  | .ok u => .ok u
  | .error e => .error (.Url e)

/-- Modelled from the spec: "joined via standard URL resolution", i.e. RFC
3986 section 5.2 reference resolution of the endpoint against the base URL
(the `url` crate's `join`).  An absolute reference stands alone; a reference
beginning with `/` keeps the base's scheme and authority and replaces the
whole path; an empty reference yields the base; any other reference replaces
the last segment of the base's path.  This definition exists only to be
compared with `CurseForgeClient.build_url`, which the source implements by
string concatenation instead. -/
def resolveUrl (base reference : String) : Except String ParsedUrl :=
  match parseUrl reference with
  | .ok u => .ok u
  | .error _ =>
    match parseUrl base with
    | .error e => .error e
    | .ok b =>
      if reference.data.head? = some '/' then .ok { b with path := reference }
      else if reference = "" then .ok b
      else
        let baseDir := String.mk ((b.path.data.reverse.dropWhile (fun c => !(c == '/'))).reverse)
        .ok { b with path := baseDir ++ reference }

/-- Outcome of one interaction with the transport, supplied as an oracle: the
send either fails (reqwest error, rendered as a message), or produces a
response with a status code, a body text (already with the source's
"Unknown error" fallback applied when the text could not be read) and, for
the 2xx path, the result of deserializing the body into the expected type. -/
inductive TransportOutcome (T : Type) : Type where
  | sendFailure (msg : String)
  | response (status : Nat) (body : String) (decoded : Except String T)

/-- The non-2xx arm of `CurseForgeClient::make_request` (src/api/client.rs
lines 175-189): match on the status code, in source order. -/
def statusToError (status : Nat) (errorText : String) : CurseForgeError :=
  if status = 401 then .AuthenticationRequired
  else if status = 403 then .PermissionDenied errorText
  else if status = 404 then .NotFound errorText
  else if status = 429 then .RateLimitExceeded
  else if 400 ≤ status ∧ status ≤ 499 then .InvalidParameters errorText
  else if 500 ≤ status ∧ status ≤ 599 then .Api status errorText
  else .Api status errorText

/-- The response handling of `CurseForgeClient::make_request` (src/api/client.rs
lines 159-191) after the request builder succeeded: a send failure wraps as
`Request`; `status.is_success()` (2xx) decodes the body, a decode failure
also wrapping as `Request`; any other status maps through `statusToError`. -/
def handleResponse {T : Type} : TransportOutcome T → Except CurseForgeError T
  | .sendFailure msg => .error (.Request msg)
  | .response status body decoded =>
    if 200 ≤ status ∧ status ≤ 299 then
      match decoded with
      | .ok v => .ok v
      | .error msg => .error (.Request msg)
    else .error (statusToError status body)

/-- The per-attempt function produced by the closures that `get` and `post`
pass to `request_with_retry` (src/api/client.rs lines 106-128), composed with
`make_request`: each attempt first rebuilds the URL (a failure there is the
closure's error) and then performs one transport interaction, whose outcome
for attempt `i` the oracle `transport` supplies. -/
def attemptOf {T : Type} (cfg : CurseForgeConfig) (endpoint : String)
    (transport : Nat → TransportOutcome T) (i : Nat) : Except CurseForgeError T :=
  match CurseForgeClient.build_url cfg endpoint with
  | .error e => .error e
  | .ok _ => handleResponse (transport i)

/-- The loop body of `CurseForgeClient::request_with_retry` (src/api/client.rs
lines 131-156).  Returns the result together with the number of attempts
performed and the list of sleep durations performed, in order.  The `fuel`
argument counts the remaining iterations the `while attempt <= max_retries`
guard allows (`max_retries + 1 - attempt`); the fuel-zero arm is exactly the
loop falling out of its guard with `last_error` still `None`, producing the
source's `Unknown "Request failed"` fallback (unreachable from `attempt = 0`,
since the loop breaks at `attempt == max_retries` before incrementing). -/
def requestWithRetryGo {T : Type} (maxRetries delay : Nat)
    (attemptFn : Nat → Except CurseForgeError T) :
    Nat → Nat → Except CurseForgeError T × Nat × List Nat
  | _, 0 => (.error (.Unknown "Request failed"), 0, [])
  | attempt, fuel + 1 =>
    match attemptFn attempt with
    | .ok v => (.ok v, 1, [])
    | .error e =>
      if e.is_retryable = true ∧ attempt ≠ maxRetries then
        let r := requestWithRetryGo maxRetries delay attemptFn (attempt + 1) fuel
        (r.1, r.2.1 + 1, delay :: r.2.2)
      else
        (.error e.clone, 1, [])

/-- `CurseForgeClient::request_with_retry` (src/api/client.rs lines 131-156):
run the loop from attempt 0.  Every error is stored as its `Clone` before the
retry decision, and the stored clone is what the function finally returns. -/
def request_with_retry {T : Type} (cfg : CurseForgeConfig)
    (attemptFn : Nat → Except CurseForgeError T) :
    Except CurseForgeError T × Nat × List Nat :=
  requestWithRetryGo cfg.max_retries cfg.retry_delay attemptFn 0 (cfg.max_retries + 1)

/-- `CurseForgeClient::get` (src/api/client.rs lines 106-115): delegate the
endpoint's request closure to the retry loop. -/
def CurseForgeClient.get {T : Type} (cfg : CurseForgeConfig) (endpoint : String)
    (transport : Nat → TransportOutcome T) :
    Except CurseForgeError T × Nat × List Nat :=
  request_with_retry cfg (attemptOf cfg endpoint transport)

/-- `CurseForgeClient::post` (src/api/client.rs lines 118-128): identical
control flow to `get`; the serialized body only influences the transport
outcome, which the oracle already captures. -/
def CurseForgeClient.post {T : Type} (cfg : CurseForgeConfig) (endpoint : String)
    (transport : Nat → TransportOutcome T) :
    Except CurseForgeError T × Nat × List Nat :=
  request_with_retry cfg (attemptOf cfg endpoint transport)

/-- The `MAX_FILE_SIZE` constant of `upload_file` (src/api/client.rs line
228): 100 MiB. -/
def MAX_FILE_SIZE : Nat := 100 * 1024 * 1024

/-- Trace of the externally visible effects of one `download_file` call:
HTTP requests issued, sleeps performed, and whether the destination file was
created. -/
structure DownloadTrace where
  requests : Nat
  sleeps : Nat
  fileCreated : Bool
deriving DecidableEq

/-- One step of the download body stream: a chunk arrives and is written, or
the stream yields a transport error, or the local write fails. -/
inductive ChunkStep : Type where
  | okChunk
  | chunkErr (msg : String)
  | writeErr (msg : String)
deriving DecidableEq

/-- The chunk-writing loop of `download_file` (src/api/client.rs lines
211-214): a stream error wraps as `Request`, a write failure as the IO
variant, and the loop stops at the first failure. -/
def writeChunks : List ChunkStep → Except CurseForgeError Unit
  | [] => .ok ()
  | .chunkErr msg :: _ => .error (.Request msg)
  | .writeErr msg :: _ => .error (.IoError msg)
  | .okChunk :: rest => writeChunks rest

/-- Display of `reqwest::StatusCode`: its rendering begins with the numeric
code (followed by a space and the canonical reason phrase).  Only the numeric
part is modelled; the containment facts proved below are insensitive to the
suffix. -/
def statusDisplay (status : Nat) : String := toString status

/-- `CurseForgeClient::download_file` (src/api/client.rs lines 194-217).
Oracles: `sendResult` is the outcome of the direct `client.get(url).send()`
(a reqwest error message, or the response status and body text with the
source's "Unknown error" fallback applied); `createResult` the outcome of
`File::create`; `chunks` the outcomes of the body stream.  The URL is passed
straight to the transport, so it does not appear in the model.  On a non-2xx
status the function returns before `File::create` is reached. -/
def CurseForgeClient.download_file (sendResult : Except String (Nat × String))
    (createResult : Except String Unit) (chunks : List ChunkStep) :
    Except CurseForgeError Unit × DownloadTrace :=
  match sendResult with
  | .error msg => (.error (.Request msg), ⟨1, 0, false⟩)
  | .ok (status, body) =>
    if ¬ (200 ≤ status ∧ status ≤ 299) then
      (.error (.DownloadFailed ("HTTP " ++ statusDisplay status ++ ": " ++ body)), ⟨1, 0, false⟩)
    else
      match createResult with
      | .error msg => (.error (.IoError msg), ⟨1, 0, false⟩)
      | .ok _ => (writeChunks chunks, ⟨1, 0, true⟩)

/-- Trace of the externally visible effects of one `upload_file` call: URL
constructions attempted, HTTP requests issued, sleeps performed. -/
structure UploadTrace where
  urlBuilds : Nat
  requests : Nat
  sleeps : Nat
deriving DecidableEq

/-- `CurseForgeClient::upload_file` (src/api/client.rs lines 220-251).
Oracles: `openResult` is the combined outcome of `File::open` and
`metadata()` (an io error message, or the file size in bytes); `outcome` the
single transport interaction.  The size check runs before `build_url` and
before any request is sent; past it, a URL failure ends the call, and
otherwise exactly one request is issued whose 2xx body is decoded (failure
wrapping as `Request`) while any other status yields `UploadFailed` with the
body text. -/
def CurseForgeClient.upload_file {T : Type} (cfg : CurseForgeConfig) (endpoint : String)
    (openResult : Except String Nat) (outcome : TransportOutcome T) :
    Except CurseForgeError T × UploadTrace :=
  match openResult with
  | .error msg => (.error (.IoError msg), ⟨0, 0, 0⟩)
  | .ok file_size =>
    if file_size > MAX_FILE_SIZE then
      (.error (.FileTooLarge file_size MAX_FILE_SIZE), ⟨0, 0, 0⟩)
    else
      match CurseForgeClient.build_url cfg endpoint with
      | .error e => (.error e, ⟨1, 0, 0⟩)
      | .ok _ =>
        match outcome with
        | .sendFailure msg => (.error (.Request msg), ⟨1, 1, 0⟩)
        | .response status body decoded =>
          if 200 ≤ status ∧ status ≤ 299 then
            match decoded with
            | .ok v => (.ok v, ⟨1, 1, 0⟩)
            | .error msg => (.error (.Request msg), ⟨1, 1, 0⟩)
          else (.error (.UploadFailed body), ⟨1, 1, 0⟩)

/-- Modelled from the spec and from usage: src/models/mod.rs declares
`pub mod search`, but src/models/search.rs itself is not among the provided
sources.  The fields of `SearchRequest` and their types are reconstructed
exactly from their uses in src/api/search.rs; the enum variants are the ones
the provided sources reference. -/
inductive SortField : Type where
  | Relevance
  | Popularity
  | LastUpdated
deriving DecidableEq

/-- Rust `{:?}` (derived Debug) rendering of a `SortField` value: the
variant name. -/
def SortField.debugFmt : SortField → String
  | .Relevance => "Relevance"
  | .Popularity => "Popularity"
  | .LastUpdated => "LastUpdated"

/-- Sort order enum of `models::search` (see `SortField` on provenance). -/
inductive SortOrder : Type where
  | Asc
  | Desc
deriving DecidableEq

/-- Rust `{:?}` rendering of a `SortOrder` value. -/
def SortOrder.debugFmt : SortOrder → String
  | .Asc => "Asc"
  | .Desc => "Desc"

/-- Mod loader enum of `models::search` (see `SortField` on provenance). -/
inductive ModLoaderType : Type where
  | Forge
  | Fabric
deriving DecidableEq

/-- Rust `{:?}` rendering of a `ModLoaderType` value. -/
def ModLoaderType.debugFmt : ModLoaderType → String
  | .Forge => "Forge"
  | .Fabric => "Fabric"

/-- ASCII lowercasing of one character, agreeing with Rust
`str::to_lowercase` on the ASCII strings the query builder produces. -/
def lowerAscii (c : Char) : Char :=
  if c.toNat ≥ 65 ∧ c.toNat ≤ 90 then Char.ofNat (c.toNat + 32) else c

/-- String lowercasing used for the sortField/sortOrder/modLoaderType query
parameters (the source lowercases the whole formatted parameter). -/
def strToLower (s : String) : String := String.mk (s.data.map lowerAscii)

/-- `SearchRequest` (models::search; see `SortField` on provenance).  The
numeric fields are u32 in the source, modelled as Nat. -/
structure SearchRequest where
  game_id : Option Nat
  class_id : Option Nat
  category_id : Option Nat
  game_version : Option String
  search_filter : Option String
  sort_field : Option SortField
  sort_order : Option SortOrder
  mod_loader_type : Option ModLoaderType
  game_version_type_id : Option Nat
  author_id : Option Nat
  slug : Option String
  index : Option Nat
  page_size : Option Nat
deriving DecidableEq

/-- `SearchRequest::default` (src/api/search.rs lines 294-312): every field
absent. -/
def SearchRequest.default : SearchRequest :=
  { game_id := none, class_id := none, category_id := none, game_version := none
    search_filter := none, sort_field := none, sort_order := none
    mod_loader_type := none, game_version_type_id := none, author_id := none
    slug := none, index := none, page_size := none }

/-- One conditional `params.push(...)` of the query builders: nothing for an
absent value, the formatted parameter for a present one. -/
def pushParam {A : Type} (o : Option A) (f : A → String) : List String :=
  match o with
  | none => []
  | some v => [f v]

/-- The query parameter list built by `search_projects` (src/api/search.rs
lines 50-92), one `pushParam` per `if let Some` push, in source order.  The
`pageSize` parameter is clamped with `page_size.min(50)`. -/
def searchParams (r : SearchRequest) : List String :=
  pushParam r.game_id (fun v => "gameId=" ++ toString v) ++
  pushParam r.class_id (fun v => "classId=" ++ toString v) ++
  pushParam r.category_id (fun v => "categoryId=" ++ toString v) ++
  pushParam r.game_version (fun v => "gameVersion=" ++ v) ++
  pushParam r.search_filter (fun v => "searchFilter=" ++ v) ++
  pushParam r.sort_field (fun v => strToLower ("sortField=" ++ SortField.debugFmt v)) ++
  pushParam r.sort_order (fun v => strToLower ("sortOrder=" ++ SortOrder.debugFmt v)) ++
  pushParam r.mod_loader_type (fun v => strToLower ("modLoaderType=" ++ ModLoaderType.debugFmt v)) ++
  pushParam r.game_version_type_id (fun v => "gameVersionTypeId=" ++ toString v) ++
  pushParam r.author_id (fun v => "authorId=" ++ toString v) ++
  pushParam r.slug (fun v => "slug=" ++ v) ++
  pushParam r.index (fun v => "index=" ++ toString v) ++
  pushParam r.page_size (fun v => "pageSize=" ++ toString (min v 50))

/-- Rust `Vec::join("&")` on the parameter list. -/
def joinAmp : List String → String
  | [] => ""
  | [x] => x
  | x :: y :: rest => x ++ "&" ++ joinAmp (y :: rest)

/-- The endpoint string `search_projects` passes to `get` (src/api/search.rs
lines 50-99): the fixed path, then `?` and the `&`-joined parameters when any
parameter is present. -/
def search_projects_endpoint (r : SearchRequest) : String :=
  let params := searchParams r
  if params.isEmpty then "/mods/search"
  else "/mods/search" ++ "?" ++ joinAmp params

/-- The query parameter list built by `get_project_files` (src/api/project.rs
lines 121-138), in source order; `page_size` is clamped with `size.min(50)`
and `mod_loader_type` is a plain string here. -/
def projectFilesParams (game_version mod_loader_type : Option String)
    (game_version_type_id index page_size : Option Nat) : List String :=
  pushParam game_version (fun v => "gameVersion=" ++ v) ++
  pushParam mod_loader_type (fun v => "modLoaderType=" ++ v) ++
  pushParam game_version_type_id (fun v => "gameVersionTypeId=" ++ toString v) ++
  pushParam index (fun v => "index=" ++ toString v) ++
  pushParam page_size (fun v => "pageSize=" ++ toString (min v 50))

/-- The endpoint string `get_project_files` passes to `get`
(src/api/project.rs lines 112-146). -/
def get_project_files_endpoint (project_id : Nat)
    (game_version mod_loader_type : Option String)
    (game_version_type_id index page_size : Option Nat) : String :=
  let params := projectFilesParams game_version mod_loader_type
    game_version_type_id index page_size
  if params.isEmpty then "/mods/" ++ toString project_id ++ "/files"
  else "/mods/" ++ toString project_id ++ "/files" ++ "?" ++ joinAmp params

/-- A parameter string carries the page-size key exactly when it starts with
the characters `pageSize=`. -/
def hasPageSizeKey (s : String) : Bool :=
  ("pageSize=").data.isPrefixOf s.data

/-! Helper lemmas about `Clone` and the retry loop.  These are shared
infrastructure; the claim theorems follow further below. -/

/-- Clone is the identity on every variant outside the deep-cause four. -/
theorem clone_eq_self_of_not_deepCause (e : CurseForgeError)
    (h : e.isDeepCause = false) : e.clone = e := by
  cases e <;> simp_all [CurseForgeError.clone, CurseForgeError.isDeepCause]

/-- Clone collapses each deep-cause variant to an `Unknown` placeholder. -/
theorem clone_unknown_of_deepCause (e : CurseForgeError)
    (h : e.isDeepCause = true) : ∃ msg, e.clone = .Unknown msg := by
  cases e <;> first
    | exact ⟨_, rfl⟩
    | simp [CurseForgeError.isDeepCause] at h

/-- Loop characterization, terminal-error form: if the attempts from
`attempt` up to `k` all fail, those before `k` with retryable errors and
attempt `k` with a non-retryable one, and `k` is within the retry budget,
then the loop performs exactly attempts `attempt..k`, sleeps once between
each consecutive pair, and returns the clone of the error of attempt `k`. -/
theorem requestWithRetryGo_stops {T : Type} (maxRetries delay : Nat)
    (f : Nat → Except CurseForgeError T) (errF : Nat → CurseForgeError) (k : Nat)
    (hk : k ≤ maxRetries)
    (hfail : ∀ i, i ≤ k → f i = .error (errF i))
    (hretry : ∀ i, i < k → (errF i).is_retryable = true)
    (hstop : (errF k).is_retryable = false) :
    ∀ fuel attempt, attempt ≤ k → k - attempt < fuel →
      requestWithRetryGo maxRetries delay f attempt fuel =
        (.error (errF k).clone, k + 1 - attempt, List.replicate (k - attempt) delay) := by
  intro fuel
  induction fuel with
  | zero => intro attempt _ h2; omega
  | succ fuel ih =>
    intro attempt h1 h2
    by_cases hak : attempt = k
    · subst hak
      simp only [requestWithRetryGo, hfail attempt le_rfl, hstop]
      simp
    · have hlt : attempt < k := lt_of_le_of_ne h1 hak
      have harith1 : k + 1 - (attempt + 1) + 1 = k + 1 - attempt := by omega
      have harith2 : k - attempt = (k - (attempt + 1)) + 1 := by omega
      simp only [requestWithRetryGo, hfail attempt (le_of_lt hlt), hretry attempt hlt]
      have hne : attempt ≠ maxRetries := by omega
      simp only [hne, ne_eq, not_false_eq_true, and_self, if_true, true_and, if_pos]
      rw [ih (attempt + 1) (by omega) (by omega)]
      simp only [harith1, harith2, List.replicate_succ]

/-- Loop characterization, budget-exhaustion form: if every attempt up to
`maxRetries` fails with a retryable error, the loop performs all remaining
attempts, sleeps between each consecutive pair, and returns the clone of the
final attempt's error. -/
theorem requestWithRetryGo_exhausts {T : Type} (maxRetries delay : Nat)
    (f : Nat → Except CurseForgeError T) (errF : Nat → CurseForgeError)
    (hfail : ∀ i, i ≤ maxRetries → f i = .error (errF i))
    (hretry : ∀ i, i ≤ maxRetries → (errF i).is_retryable = true) :
    ∀ fuel attempt, attempt ≤ maxRetries → maxRetries - attempt < fuel →
      requestWithRetryGo maxRetries delay f attempt fuel =
        (.error (errF maxRetries).clone, maxRetries + 1 - attempt,
         List.replicate (maxRetries - attempt) delay) := by
  intro fuel
  induction fuel with
  | zero => intro attempt _ h2; omega
  | succ fuel ih =>
    intro attempt h1 h2
    by_cases hak : attempt = maxRetries
    · subst hak
      simp only [requestWithRetryGo, hfail attempt le_rfl]
      simp
    · have hlt : attempt < maxRetries := lt_of_le_of_ne h1 hak
      have harith1 : maxRetries + 1 - (attempt + 1) + 1 = maxRetries + 1 - attempt := by omega
      have harith2 : maxRetries - attempt = (maxRetries - (attempt + 1)) + 1 := by omega
      simp only [requestWithRetryGo, hfail attempt (le_of_lt hlt),
        hretry attempt (le_of_lt hlt)]
      simp only [hak, ne_eq, not_false_eq_true, and_self, if_true, true_and, if_pos]
      rw [ih (attempt + 1) (by omega) (by omega)]
      simp only [harith1, harith2, List.replicate_succ]

/-- C1 counterexample: with a configured base URL that does not parse (base
`""`), the failure site inside the request closure of `get` produces the
error `Url "relative URL without a base"`, a non-retryable kind, yet the
caller receives `Unknown "URL error (not cloneable)"` — not the same variant
with the same payload. -/
theorem c1_counterexample :
    attemptOf { CurseForgeConfig.default with base_url := "" } ""
        (fun _ => (.sendFailure "x" : TransportOutcome Nat)) 0
      = .error (.Url "relative URL without a base")
  ∧ (CurseForgeError.Url "relative URL without a base").is_retryable = false
  ∧ (CurseForgeClient.get { CurseForgeConfig.default with base_url := "" } ""
        (fun _ => (.sendFailure "x" : TransportOutcome Nat))).1
      = .error (.Unknown "URL error (not cloneable)")
  ∧ (CurseForgeClient.get { CurseForgeConfig.default with base_url := "" } ""
        (fun _ => (.sendFailure "x" : TransportOutcome Nat))).1
      ≠ .error (.Url "relative URL without a base") := by
  decide

/-- C1 (amended): for `get` and `post`, an error of a non-retryable kind ends
the call at the attempt that produced it and is returned to the caller after
Clone-normalization: every variant other than the four deep-cause ones
(`Request`, `Json`, `Url`, `Io`) is returned unchanged with its payload,
while a deep-cause variant is returned as an `Unknown` placeholder. -/
theorem c1_normalized_propagation {T : Type} (cfg : CurseForgeConfig) (endpoint : String)
    (transport : Nat → TransportOutcome T) (errF : Nat → CurseForgeError) (k : Nat)
    (hk : k ≤ cfg.max_retries)
    (hfail : ∀ i, i ≤ k → attemptOf cfg endpoint transport i = .error (errF i))
    (hretry : ∀ i, i < k → (errF i).is_retryable = true)
    (hstop : (errF k).is_retryable = false) :
    (CurseForgeClient.get cfg endpoint transport).1 = .error (errF k).clone
  ∧ (CurseForgeClient.post cfg endpoint transport).1 = .error (errF k).clone
  ∧ ((errF k).isDeepCause = false → (errF k).clone = errF k)
  ∧ ((errF k).isDeepCause = true → ∃ msg, (errF k).clone = .Unknown msg) := by
  have hrun := requestWithRetryGo_stops cfg.max_retries cfg.retry_delay
    (attemptOf cfg endpoint transport) errF k hk hfail hretry hstop
    (cfg.max_retries + 1) 0 (Nat.zero_le k) (by omega)
  refine ⟨?_, ?_, clone_eq_self_of_not_deepCause _, clone_unknown_of_deepCause _⟩
  · show (request_with_retry cfg (attemptOf cfg endpoint transport)).1 = _
    rw [request_with_retry, hrun]
  · show (request_with_retry cfg (attemptOf cfg endpoint transport)).1 = _
    rw [request_with_retry, hrun]

/-- C1 witness: the amended theorem applied at a concrete input (invalid
configured base URL, terminal at attempt 0 with a `Url` error). -/
theorem c1_witness :
    (CurseForgeClient.get { CurseForgeConfig.default with base_url := "" } ""
        (fun _ => (.sendFailure "x" : TransportOutcome Nat))).1
      = .error (CurseForgeError.Url "relative URL without a base").clone
  ∧ (CurseForgeClient.post { CurseForgeConfig.default with base_url := "" } ""
        (fun _ => (.sendFailure "x" : TransportOutcome Nat))).1
      = .error (CurseForgeError.Url "relative URL without a base").clone
  ∧ ((CurseForgeError.Url "relative URL without a base").isDeepCause = false →
      (CurseForgeError.Url "relative URL without a base").clone
        = CurseForgeError.Url "relative URL without a base")
  ∧ ((CurseForgeError.Url "relative URL without a base").isDeepCause = true →
      ∃ msg, (CurseForgeError.Url "relative URL without a base").clone
        = .Unknown msg) :=
  c1_normalized_propagation { CurseForgeConfig.default with base_url := "" } ""
    (fun _ => (.sendFailure "x" : TransportOutcome Nat))
    (fun _ => .Url "relative URL without a base") 0
    (by decide) (fun _ _ => rfl) (fun i hi => absurd hi (Nat.not_lt_zero i)) (by decide)

/-- C2 counterexample: with `max_retries = 1` and every attempt failing with
the retryable transport error `Request "connection refused"`, the executor
does perform 2 attempts with one sleep of the configured delay, but it
returns `Unknown "Request error (not cloneable)"` — not the last observed
error. -/
theorem c2_counterexample :
    request_with_retry { CurseForgeConfig.default with max_retries := 1 }
        (fun _ => (.error (.Request "connection refused") : Except CurseForgeError Nat))
      = (.error (.Unknown "Request error (not cloneable)"), 2, [1])
  ∧ (request_with_retry { CurseForgeConfig.default with max_retries := 1 }
        (fun _ => (.error (.Request "connection refused") : Except CurseForgeError Nat))).1
      ≠ .error (.Request "connection refused") := by
  decide

/-- C2 (amended): with `max_retries = N` and every attempt failing with a
retryable error, `get`/`post`'s retry loop performs exactly N+1 attempts,
sleeps for the configured `retry_delay` between each pair of consecutive
attempts (N sleeps in total), and returns the Clone-normalization of the
last observed error — which is the last error itself for the cloneable
retryable kinds (`Timeout`, `RateLimitExceeded`), and the `Unknown`
placeholder for a transport `Request` error. -/
theorem c2_retry_exhaustion {T : Type} (cfg : CurseForgeConfig)
    (f : Nat → Except CurseForgeError T) (errF : Nat → CurseForgeError)
    (hfail : ∀ i, i ≤ cfg.max_retries → f i = .error (errF i))
    (hretry : ∀ i, i ≤ cfg.max_retries → (errF i).is_retryable = true) :
    request_with_retry cfg f =
      (.error (errF cfg.max_retries).clone, cfg.max_retries + 1,
       List.replicate cfg.max_retries cfg.retry_delay) := by
  have hrun := requestWithRetryGo_exhausts cfg.max_retries cfg.retry_delay f errF
    hfail hretry (cfg.max_retries + 1) 0 (Nat.zero_le _) (by omega)
  rw [request_with_retry, hrun]
  simp

/-- C2 witness: the amended theorem applied at a concrete input
(`max_retries = 2`, every attempt rate-limited). -/
theorem c2_witness :
    request_with_retry { CurseForgeConfig.default with max_retries := 2 }
        (fun _ => (.error .RateLimitExceeded : Except CurseForgeError Nat))
      = (.error (CurseForgeError.RateLimitExceeded).clone, 3, [1, 1]) := by
  have h := c2_retry_exhaustion { CurseForgeConfig.default with max_retries := 2 }
    (fun _ => (.error .RateLimitExceeded : Except CurseForgeError Nat))
    (fun _ => .RateLimitExceeded) (fun _ _ => rfl) (fun _ _ => rfl)
  rw [h]; rfl

/-- C5 counterexample: a first attempt failing with the non-retryable IO
variant is returned as the `Unknown` placeholder, not as the error that was
produced; the attempt and sleep counts do hold. -/
theorem c5_counterexample :
    request_with_retry CurseForgeConfig.default
        (fun _ => (.error (.IoError "permission denied") : Except CurseForgeError Nat))
      = (.error (.Unknown "IO error (not cloneable)"), 1, [])
  ∧ (request_with_retry CurseForgeConfig.default
        (fun _ => (.error (.IoError "permission denied") : Except CurseForgeError Nat))).1
      ≠ .error (.IoError "permission denied") := by
  decide

/-- C5 (amended): when the first attempt fails with a non-retryable error,
the retry loop performs exactly one attempt, never sleeps, and immediately
returns the Clone-normalization of that error (the error itself for every
cloneable variant). -/
theorem c5_single_attempt {T : Type} (cfg : CurseForgeConfig)
    (f : Nat → Except CurseForgeError T) (e : CurseForgeError)
    (h : f 0 = .error e) (hnr : e.is_retryable = false) :
    request_with_retry cfg f = (.error e.clone, 1, []) := by
  have hrun := requestWithRetryGo_stops cfg.max_retries cfg.retry_delay f
    (fun _ => e) 0 (Nat.zero_le _)
    (fun i hi => by cases Nat.le_zero.mp hi; exact h)
    (fun i hi => absurd hi (Nat.not_lt_zero i)) hnr
    (cfg.max_retries + 1) 0 le_rfl (by omega)
  rw [request_with_retry, hrun]; rfl

/-- C5 witness: the amended theorem applied at a concrete input (a cloneable
non-retryable error, for which the clone is the error itself). -/
theorem c5_witness :
    request_with_retry CurseForgeConfig.default
        (fun _ => (.error (.NotFound "nope") : Except CurseForgeError Nat))
      = (.error (CurseForgeError.NotFound "nope").clone, 1, []) :=
  c5_single_attempt CurseForgeConfig.default
    (fun _ => (.error (.NotFound "nope") : Except CurseForgeError Nat))
    (.NotFound "nope") rfl rfl

/-- C3 counterexample: at the spec's own example input, standard URL
resolution of `/test` against the base `https://api.curseforge.com/v1`
yields `https://api.curseforge.com/test` (an absolute-path reference
replaces the base's whole path, RFC 3986 section 5.2), while `build_url`
yields `https://api.curseforge.com/v1/test` — because the source joins by
string concatenation, not by URL resolution. -/
theorem c3_counterexample :
    (CurseForgeClient.build_url CurseForgeConfig.default "/test").map ParsedUrl.serialize
      = .ok "https://api.curseforge.com/v1/test"
  ∧ (resolveUrl CurseForgeConfig.default.base_url "/test").map ParsedUrl.serialize
      = .ok "https://api.curseforge.com/test"
  ∧ "https://api.curseforge.com/v1/test" ≠ "https://api.curseforge.com/test" := by
  decide

/-- C3 (amended): `get` and `post` construct the target URL by parsing the
string concatenation of the configured base URL and the endpoint, and fail —
always with the `Url` error kind — exactly when that concatenated string
does not parse as an absolute URL; the spec's example
`build_url "/test"` against the default base yields
`https://api.curseforge.com/v1/test`. -/
theorem c3_concatenation (cfg : CurseForgeConfig) (endpoint : String) :
    (∀ u, CurseForgeClient.build_url cfg endpoint = .ok u ↔
      parseUrl (cfg.base_url ++ endpoint) = .ok u)
  ∧ (∀ e, CurseForgeClient.build_url cfg endpoint = .error (.Url e) ↔
      parseUrl (cfg.base_url ++ endpoint) = .error e)
  ∧ (∀ err, CurseForgeClient.build_url cfg endpoint = .error err → ∃ e, err = .Url e)
  ∧ (CurseForgeClient.build_url CurseForgeConfig.default "/test").map ParsedUrl.serialize
      = .ok "https://api.curseforge.com/v1/test" := by
  refine ⟨?_, ?_, ?_, by decide⟩ <;>
    cases h : parseUrl (cfg.base_url ++ endpoint) <;>
      simp [CurseForgeClient.build_url, h]

/-- C3 witness: the amended theorem applied at the default configuration and
the endpoint of the spec's example. -/
theorem c3_witness :
    (CurseForgeClient.build_url CurseForgeConfig.default "/test").map ParsedUrl.serialize
      = .ok "https://api.curseforge.com/v1/test" :=
  (c3_concatenation CurseForgeConfig.default "/test").2.2.2

/-- C4: on a non-2xx response the single-request step returns the error
determined by the status: 401 maps to authentication-required, 403 to
permission-denied with the body text, 404 to not-found with the body text,
429 to rate-limit-exceeded, any other 4xx to invalid-parameters with the
body text, and any 5xx to the API error carrying the numeric status and the
body text. -/
theorem c4_status_mapping {T : Type} (status : Nat) (body : String)
    (decoded : Except String T) (hns : ¬ (200 ≤ status ∧ status ≤ 299)) :
    handleResponse (.response status body decoded) = .error (statusToError status body)
  ∧ (status = 401 → statusToError status body = .AuthenticationRequired)
  ∧ (status = 403 → statusToError status body = .PermissionDenied body)
  ∧ (status = 404 → statusToError status body = .NotFound body)
  ∧ (status = 429 → statusToError status body = .RateLimitExceeded)
  ∧ (400 ≤ status → status ≤ 499 → status ∉ ([401, 403, 404, 429] : List Nat) →
      statusToError status body = .InvalidParameters body)
  ∧ (500 ≤ status → status ≤ 599 → statusToError status body = .Api status body) := by
  refine ⟨by simp [handleResponse, hns], ?_, ?_, ?_, ?_, ?_, ?_⟩
  · intro h; subst h; rfl
  · intro h; subst h; rfl
  · intro h; subst h; rfl
  · intro h; subst h; rfl
  · intro h1 h2 h3
    simp only [List.mem_cons, List.not_mem_nil, or_false, not_or] at h3
    obtain ⟨n1, n2, n3, n4⟩ := h3
    rw [statusToError, if_neg n1, if_neg n2, if_neg n3, if_neg n4, if_pos ⟨h1, h2⟩]
  · intro h1 h2
    rw [statusToError, if_neg (by omega), if_neg (by omega), if_neg (by omega),
      if_neg (by omega), if_neg (by omega), if_pos ⟨h1, h2⟩]

/-- C4 witness: the mapping theorem applied at status 500 with a concrete
body (the spec's example of an API error carrying status and body text). -/
theorem c4_witness :
    handleResponse (.response 500 "oops" (.ok (0 : Nat)))
      = .error (statusToError 500 "oops")
  ∧ statusToError 500 "oops" = .Api 500 "oops" := by
  have h := c4_status_mapping 500 "oops" (.ok (0 : Nat)) (by decide)
  exact ⟨h.1, h.2.2.2.2.2.2 (by decide) (by decide)⟩

/-- C6: construction via `new` or `with_config` rejects every empty API key
with the invalid-key error; for a non-empty key that encodes as a header
value (and, for `with_config`, a user agent that does too), construction
succeeds and the stored configuration's `api_key` equals the input key. -/
theorem c6_construction (key : String) (cfg : CurseForgeConfig) :
    (key = "" → CurseForgeClient.new key = .error .InvalidApiKey)
  ∧ (cfg.api_key = "" → CurseForgeClient.with_config cfg = .error .InvalidApiKey)
  ∧ (key ≠ "" → headerValueValid ("Bearer " ++ key) = true →
      ∃ c, CurseForgeClient.new key = .ok c ∧ c.config.api_key = key)
  ∧ (cfg.api_key ≠ "" → headerValueValid ("Bearer " ++ cfg.api_key) = true →
      headerValueValid cfg.user_agent = true →
      ∃ c, CurseForgeClient.with_config cfg = .ok c ∧ c.config.api_key = cfg.api_key) := by
  refine ⟨?_, ?_, ?_, ?_⟩
  · intro h; subst h; decide
  · intro h
    rw [CurseForgeClient.with_config, if_pos h]
  · intro h1 h2
    have hua : headerValueValid CurseForgeConfig.default.user_agent = true := by decide
    rw [CurseForgeClient.new, CurseForgeClient.with_config,
      if_neg (by simpa using h1), if_neg (not_not_intro h2), if_neg (not_not_intro hua)]
    exact ⟨_, rfl, rfl⟩
  · intro h1 h2 h3
    rw [CurseForgeClient.with_config, if_neg h1, if_neg (not_not_intro h2),
      if_neg (not_not_intro h3)]
    exact ⟨_, rfl, rfl⟩

/-- C6 witness: the construction theorem applied at the repository's own
test inputs: the empty key is rejected and `"test-api-key"` is stored. -/
theorem c6_witness :
    CurseForgeClient.new "" = .error .InvalidApiKey
  ∧ ∃ c, CurseForgeClient.new "test-api-key" = .ok c
      ∧ c.config.api_key = "test-api-key" := by
  have h1 := (c6_construction "" CurseForgeConfig.default).1 rfl
  have h2 := (c6_construction "test-api-key" CurseForgeConfig.default).2.2.1
    (by decide) (by decide)
  exact ⟨h1, h2⟩

/-- C7: an upload whose file size strictly exceeds 100 MiB (104857600 bytes)
returns the file-too-large error carrying the actual size and the limit, and
the trace shows that no URL was built and no HTTP request was issued. -/
theorem c7_upload_size_limit {T : Type} (cfg : CurseForgeConfig) (endpoint : String)
    (size : Nat) (outcome : TransportOutcome T) (h : size > MAX_FILE_SIZE) :
    CurseForgeClient.upload_file cfg endpoint (.ok size) outcome
      = (.error (.FileTooLarge size MAX_FILE_SIZE), ⟨0, 0, 0⟩)
  ∧ MAX_FILE_SIZE = 104857600 := by
  refine ⟨?_, by decide⟩
  rw [CurseForgeClient.upload_file.eq_def]
  simp [h]

/-- C7 witness: the size-limit theorem applied at one byte over the limit. -/
theorem c7_witness :
    CurseForgeClient.upload_file CurseForgeConfig.default "/x"
        (.ok (104857601)) (.sendFailure "n" : TransportOutcome Nat)
      = (.error (.FileTooLarge 104857601 MAX_FILE_SIZE), ⟨0, 0, 0⟩)
  ∧ MAX_FILE_SIZE = 104857600 :=
  c7_upload_size_limit CurseForgeConfig.default "/x" 104857601
    (.sendFailure "n" : TransportOutcome Nat) (by decide)

/-- C8: a download whose response status is non-2xx returns a
download-failed error whose message is `HTTP <status>: <body>` — so it
contains the status and the response body text — and the trace shows the
destination file was never created. -/
theorem c8_download_error (status : Nat) (body : String)
    (createResult : Except String Unit) (chunks : List ChunkStep)
    (h : ¬ (200 ≤ status ∧ status ≤ 299)) :
    CurseForgeClient.download_file (.ok (status, body)) createResult chunks
      = (.error (.DownloadFailed ("HTTP " ++ statusDisplay status ++ ": " ++ body)),
         ⟨1, 0, false⟩)
  ∧ (∃ a b, "HTTP " ++ statusDisplay status ++ ": " ++ body
      = a ++ statusDisplay status ++ b)
  ∧ (∃ a, "HTTP " ++ statusDisplay status ++ ": " ++ body = a ++ body) := by
  refine ⟨?_, ⟨"HTTP ", ": " ++ body, ?_⟩, ⟨"HTTP " ++ statusDisplay status ++ ": ", rfl⟩⟩
  · rw [CurseForgeClient.download_file.eq_def]
    dsimp only
    rw [if_pos h]
  · rw [String.append_assoc]

/-- C8 witness: the download-error theorem applied at status 404 with body
`missing`; no file creation is attempted even though creation would have
succeeded. -/
theorem c8_witness :
    CurseForgeClient.download_file (.ok (404, "missing")) (.ok ()) []
      = (.error (.DownloadFailed ("HTTP " ++ statusDisplay 404 ++ ": " ++ "missing")),
         ⟨1, 0, false⟩)
  ∧ (∃ a b, "HTTP " ++ statusDisplay 404 ++ ": " ++ "missing"
      = a ++ statusDisplay 404 ++ b)
  ∧ (∃ a, "HTTP " ++ statusDisplay 404 ++ ": " ++ "missing" = a ++ "missing") :=
  c8_download_error 404 "missing" (.ok ()) [] (by decide)

/-- C10: `download_file` and `upload_file` never enter the retry loop: for
every oracle outcome — including ones that produce retryable error kinds —
at most one HTTP request is issued and no retry sleep is ever performed. -/
theorem c10_single_request {T : Type} (cfg : CurseForgeConfig) (endpoint : String)
    (sendResult : Except String (Nat × String)) (createResult : Except String Unit)
    (chunks : List ChunkStep) (openResult : Except String Nat)
    (outcome : TransportOutcome T) :
    (CurseForgeClient.download_file sendResult createResult chunks).2.requests ≤ 1
  ∧ (CurseForgeClient.download_file sendResult createResult chunks).2.sleeps = 0
  ∧ (CurseForgeClient.upload_file cfg endpoint openResult outcome).2.requests ≤ 1
  ∧ (CurseForgeClient.upload_file cfg endpoint openResult outcome).2.sleeps = 0 := by
  have hd : ∃ b, (CurseForgeClient.download_file sendResult createResult chunks).2
      = ⟨1, 0, b⟩ := by
    rw [CurseForgeClient.download_file.eq_def]
    split
    · exact ⟨false, rfl⟩
    · split
      · exact ⟨false, rfl⟩
      · split
        · exact ⟨false, rfl⟩
        · exact ⟨true, rfl⟩
  have hu : ∃ tr : UploadTrace,
      (CurseForgeClient.upload_file cfg endpoint openResult outcome).2 = tr
      ∧ tr.requests ≤ 1 ∧ tr.sleeps = 0 := by
    rw [CurseForgeClient.upload_file.eq_def]
    split
    · exact ⟨_, rfl, Nat.zero_le 1, rfl⟩
    · split
      · exact ⟨_, rfl, Nat.zero_le 1, rfl⟩
      · split
        · exact ⟨_, rfl, Nat.zero_le 1, rfl⟩
        · split
          · exact ⟨_, rfl, Nat.le_refl 1, rfl⟩
          · split
            · split
              · exact ⟨_, rfl, Nat.le_refl 1, rfl⟩
              · exact ⟨_, rfl, Nat.le_refl 1, rfl⟩
            · exact ⟨_, rfl, Nat.le_refl 1, rfl⟩
  obtain ⟨b, hb⟩ := hd
  obtain ⟨tr, htr, h1, h2⟩ := hu
  exact ⟨by rw [hb], by rw [hb], by rw [htr]; exact h1, by rw [htr]; exact h2⟩

/-- Membership in one conditional parameter push. -/
theorem mem_pushParam {A : Type} {o : Option A} {f : A → String} {s : String} :
    s ∈ pushParam o f ↔ ∃ v, o = some v ∧ s = f v := by
  cases o <;> simp [pushParam]

/-- A string whose first character is not `p`, with anything appended, does
not carry the page-size key. -/
theorem hasPageSizeKey_of_head (s t : String) (c : Char) (cs : List Char)
    (hs : s.data = c :: cs) (hc : c ≠ 'p') : hasPageSizeKey (s ++ t) = false := by
  rw [hasPageSizeKey, String.data_append, hs, List.cons_append]
  have hd : ("pageSize=").data = 'p' :: ("ageSize=").data := rfl
  have hbeq : ('p' == c) = false := by
    simp only [beq_eq_false_iff_ne, ne_eq]
    exact fun h => hc h.symm
  rw [hd]
  simp [List.isPrefixOf, hbeq]

/-- The lowercased sortField parameter never carries the page-size key. -/
theorem hasPageSizeKey_sortField (v : SortField) :
    hasPageSizeKey (strToLower ("sortField=" ++ SortField.debugFmt v)) = false := by
  cases v <;> decide

/-- The lowercased sortOrder parameter never carries the page-size key. -/
theorem hasPageSizeKey_sortOrder (v : SortOrder) :
    hasPageSizeKey (strToLower ("sortOrder=" ++ SortOrder.debugFmt v)) = false := by
  cases v <;> decide

/-- The lowercased modLoaderType parameter never carries the page-size key. -/
theorem hasPageSizeKey_modLoader (v : ModLoaderType) :
    hasPageSizeKey (strToLower ("modLoaderType=" ++ ModLoaderType.debugFmt v)) = false := by
  cases v <;> decide

/-- Joining a list whose last element is `x` produces a string ending in
`x`. -/
theorem joinAmp_append_last (l : List String) (x : String) :
    ∃ pre, joinAmp (l ++ [x]) = pre ++ x := by
  induction l with
  | nil => exact ⟨"", by simp [joinAmp]⟩
  | cons a l ih =>
    cases l with
    | nil => exact ⟨a ++ "&", rfl⟩
    | cons b l2 =>
      obtain ⟨pre, hpre⟩ := ih
      refine ⟨a ++ "&" ++ pre, ?_⟩
      rw [List.cons_append, List.cons_append, joinAmp]
      rw [← List.cons_append, hpre, ← String.append_assoc]

/-- C9: in both endpoint-layer query builders that accept a page size
(`search_projects` and `get_project_files`), a supplied page size `p` is
emitted as the single parameter `pageSize=min(p,50)` — appearing verbatim at
the end of the endpoint's query string — so the emitted page size never
exceeds 50; and when no page size is supplied, no parameter carrying the
`pageSize` key is emitted at all. -/
theorem c9_page_size_clamp (r : SearchRequest) (p : Nat) (project_id : Nat)
    (gv ml : Option String) (gvt idx ps : Option Nat) :
    (r.page_size = some p →
      ("pageSize=" ++ toString (min p 50)) ∈ searchParams r)
  ∧ (r.page_size = some p →
      ∃ pre, search_projects_endpoint r = pre ++ ("pageSize=" ++ toString (min p 50)))
  ∧ (r.page_size = none → ∀ s ∈ searchParams r, hasPageSizeKey s = false)
  ∧ (ps = some p →
      ("pageSize=" ++ toString (min p 50)) ∈ projectFilesParams gv ml gvt idx ps)
  ∧ (ps = some p →
      ∃ pre, get_project_files_endpoint project_id gv ml gvt idx ps
        = pre ++ ("pageSize=" ++ toString (min p 50)))
  ∧ (ps = none →
      ∀ s ∈ projectFilesParams gv ml gvt idx ps, hasPageSizeKey s = false)
  ∧ min p 50 ≤ 50 := by
  refine ⟨?_, ?_, ?_, ?_, ?_, ?_, Nat.min_le_right p 50⟩
  · intro h
    simp only [searchParams, List.mem_append]
    right
    rw [h]
    simp [pushParam]
  · intro h
    obtain ⟨init, hinit⟩ : ∃ init, searchParams r
        = init ++ pushParam r.page_size (fun v => "pageSize=" ++ toString (min v 50)) :=
      ⟨_, rfl⟩
    rw [h] at hinit
    simp only [pushParam] at hinit
    obtain ⟨pre, hpre⟩ := joinAmp_append_last init ("pageSize=" ++ toString (min p 50))
    have hne : (searchParams r).isEmpty = false := by
      rw [hinit]; cases init <;> rfl
    refine ⟨"/mods/search" ++ "?" ++ pre, ?_⟩
    simp only [search_projects_endpoint]
    rw [if_neg (by rw [hne]; exact Bool.false_ne_true)]
    rw [hinit, hpre, ← String.append_assoc]
  · intro h s hs
    simp only [searchParams, List.mem_append, mem_pushParam] at hs
    rcases hs with
      (((((((((((⟨v, hv, rfl⟩ | ⟨v, hv, rfl⟩) | ⟨v, hv, rfl⟩) | ⟨v, hv, rfl⟩) |
        ⟨v, hv, rfl⟩) | ⟨v, hv, rfl⟩) | ⟨v, hv, rfl⟩) | ⟨v, hv, rfl⟩) |
        ⟨v, hv, rfl⟩) | ⟨v, hv, rfl⟩) | ⟨v, hv, rfl⟩) | ⟨v, hv, rfl⟩) | ⟨v, hv, rfl⟩
    · exact hasPageSizeKey_of_head _ _ _ _ rfl (by decide)
    · exact hasPageSizeKey_of_head _ _ _ _ rfl (by decide)
    · exact hasPageSizeKey_of_head _ _ _ _ rfl (by decide)
    · exact hasPageSizeKey_of_head _ _ _ _ rfl (by decide)
    · exact hasPageSizeKey_of_head _ _ _ _ rfl (by decide)
    · exact hasPageSizeKey_sortField v
    · exact hasPageSizeKey_sortOrder v
    · exact hasPageSizeKey_modLoader v
    · exact hasPageSizeKey_of_head _ _ _ _ rfl (by decide)
    · exact hasPageSizeKey_of_head _ _ _ _ rfl (by decide)
    · exact hasPageSizeKey_of_head _ _ _ _ rfl (by decide)
    · exact hasPageSizeKey_of_head _ _ _ _ rfl (by decide)
    · rw [h] at hv; exact absurd hv (by simp)
  · intro h
    simp only [projectFilesParams, List.mem_append]
    right
    rw [h]
    simp [pushParam]
  · intro h
    subst h
    obtain ⟨init, hinit⟩ : ∃ init, projectFilesParams gv ml gvt idx (some p)
        = init ++ pushParam (some p) (fun v => "pageSize=" ++ toString (min v 50)) :=
      ⟨_, rfl⟩
    simp only [pushParam] at hinit
    obtain ⟨pre, hpre⟩ := joinAmp_append_last init ("pageSize=" ++ toString (min p 50))
    have hne : (projectFilesParams gv ml gvt idx (some p)).isEmpty = false := by
      rw [hinit]; cases init <;> rfl
    refine ⟨"/mods/" ++ toString project_id ++ "/files" ++ "?" ++ pre, ?_⟩
    simp only [get_project_files_endpoint]
    rw [if_neg (by rw [hne]; exact Bool.false_ne_true)]
    rw [hinit, hpre, ← String.append_assoc]
  · intro h s hs
    simp only [projectFilesParams, List.mem_append, mem_pushParam] at hs
    rcases hs with
      (((⟨v, hv, rfl⟩ | ⟨v, hv, rfl⟩) | ⟨v, hv, rfl⟩) | ⟨v, hv, rfl⟩) | ⟨v, hv, rfl⟩
    · exact hasPageSizeKey_of_head _ _ _ _ rfl (by decide)
    · exact hasPageSizeKey_of_head _ _ _ _ rfl (by decide)
    · exact hasPageSizeKey_of_head _ _ _ _ rfl (by decide)
    · exact hasPageSizeKey_of_head _ _ _ _ rfl (by decide)
    · rw [h] at hv; exact absurd hv (by simp)

/-- C9 witness: the clamp theorem applied at concrete inputs: a supplied
page size of 100 is emitted as `pageSize=50` by both builders, and a request
without a page size emits no `pageSize` parameter. -/
theorem c9_witness :
    ("pageSize=" ++ toString (min 100 50))
      ∈ searchParams { SearchRequest.default with page_size := some 100 }
  ∧ (∃ pre, search_projects_endpoint { SearchRequest.default with page_size := some 100 }
      = pre ++ ("pageSize=" ++ toString (min 100 50)))
  ∧ ("pageSize=" ++ toString (min 100 50))
      ∈ projectFilesParams none none none none (some 100)
  ∧ (∀ s ∈ searchParams { SearchRequest.default with game_id := some 432 },
      hasPageSizeKey s = false) := by
  have h := c9_page_size_clamp { SearchRequest.default with page_size := some 100 }
    100 12345 none none none none (some 100)
  have h2 := c9_page_size_clamp { SearchRequest.default with game_id := some 432 }
    100 12345 none none none none (some 100)
  exact ⟨h.1 rfl, h.2.1 rfl, h.2.2.2.1 rfl, h2.2.2.1 rfl⟩
